import Mathlib

/-!
Verification of the kubenurse `spawner` package (pkg/spawner/spawner.go).

The Go code orchestrates one create/configure/await/delete cycle of a
"patient" probe pod.  We shallowly embed its data model and operations:
pure functions (`getPodSDHostname`, `configurePod`, the kind-check of
`decodePodTemplate`) become Lean functions over a Lean model of the pod
resource; the stateful orchestration (`Run`, `cleanupPod`) is embedded as a
function from an oracle of cluster-API call outcomes to a result together
with a trace of the API operations performed; `waitForIP` is embedded as a
sequential consumer of the list of pod events delivered by the informer.
-/

namespace Spawner

/-! ## Data model (the fields of `apiv1.Pod` the spawner reads or writes) -/

/-- An environment variable of a container (`apiv1.EnvVar`): `Name`, `Value`. -/
structure EnvVar where
  name : String
  value : String
  deriving Repr, DecidableEq

/-- A container (`apiv1.Container`), restricted to the fields the spawner
touches: `Name`, `Args`, `Image`, `Env`. -/
structure Container where
  name : String
  args : List String
  image : String
  env : List EnvVar
  deriving Repr, DecidableEq

/-- An owner reference (`metav1.OwnerReference`): `APIVersion`, `Kind`,
`Name`, `UID`. -/
structure OwnerReference where
  apiVersion : String
  kind : String
  name : String
  uid : String
  deriving Repr, DecidableEq

/-- A pod (`apiv1.Pod`), restricted to the fields the spawner reads or
writes: `ObjectMeta.Name`, `ObjectMeta.UID`, `ObjectMeta.OwnerReferences`,
`Spec.Containers`, `Status.PodIP`. -/
structure Pod where
  name : String
  uid : String
  ownerReferences : List OwnerReference
  containers : List Container
  podIP : String
  deriving Repr, DecidableEq

/-- The zero value of `apiv1.Pod` in our model (`&apiv1.Pod{}`). -/
def zeroPod : Pod :=
  { name := "", uid := "", ownerReferences := [], containers := [], podIP := "" }

/-- The `Spawner` configuration struct. The pod template is carried
separately by the orchestration embedding (see `TemplateInput`). -/
structure SpawnerCfg where
  PatientNamespace : String
  PatientImage : String
  ServiceURL : String
  IngressURL : String
  deriving Repr, DecidableEq

/-! ## `getPodSDHostname` and Go's `strings.Replace` with a limit -/

/-- Go's `strings.Replace(s, old, new, n)` specialised to a one-character
`old` and `new` (the source calls it as
`strings.Replace(p.Status.PodIP, ".", "-", 4)`): replace the first `n`
occurrences of `old` in the character list by `new`, leaving the rest of
the list unchanged once the budget `n` is exhausted. -/
def replaceLimited (old new : Char) : List Char → Nat → List Char
  | [], _ => []
  | cs, 0 => cs
  | c :: cs, Nat.succ n =>
      if c = old then new :: replaceLimited old new cs n
      else c :: replaceLimited old new cs (Nat.succ n)

/-- `getPodSDHostname` returns the FQDN to reach a pod directly:
`strings.Replace(p.Status.PodIP, ".", "-", 4)` followed by the literal
suffix `".default.pod.cluster.local"`. -/
def getPodSDHostname (p : Pod) : String :=
  String.mk (replaceLimited '.' '-' p.podIP.data 4) ++ ".default.pod.cluster.local"

/-! ## `configurePod` -/

/-- The four environment variables `configurePod` installs on the first
container, built from the parent pod and the spawner configuration. -/
def patientEnv (spw : SpawnerCfg) (parent : Pod) : List EnvVar :=
  [ { name := "KUBENURSE_DIRECT_URL", value := "http://" ++ parent.podIP ++ ":8080" },
    { name := "KUBENURSE_DNS_URL", value := "http://" ++ getPodSDHostname parent ++ ":8080" },
    { name := "KUBENURSE_INGRESS_URL", value := spw.IngressURL },
    { name := "KUBENURSE_SERVICE_URL", value := spw.ServiceURL } ]

/-- `configurePod` manipulates the template pod and sets all attributes
required to create a patient pod: name `<parent>-patient`, a single owner
reference to the parent, a synthesized `patient` container when the
template declares none, and the first container's image and environment
overwritten from the configuration and the parent's address. -/
def configurePod (spw : SpawnerCfg) (tmpl parent : Pod) : Pod :=
  let t1 : Pod :=
    { tmpl with
      name := parent.name ++ "-patient",
      ownerReferences :=
        [ { apiVersion := "v1", kind := "Pod", name := parent.name, uid := parent.uid } ] }
  let t2 : Pod :=
    if t1.containers.isEmpty then
      { t1 with containers := [ { name := "patient", args := ["patient"], image := "", env := [] } ] }
    else t1
  match t2.containers with
  | [] => t2
  | c0 :: rest =>
      { t2 with containers :=
          { c0 with image := spw.PatientImage, env := patientEnv spw parent } :: rest }

/-! ## `decodePodTemplate` -/

/-- A group/version/kind triple as resolved by the deserializer
(`schema.GroupVersionKind`). -/
structure GroupVersionKind where
  group : String
  version : String
  kind : String
  deriving Repr, DecidableEq

/-- Errors of `decodePodTemplate`, mirroring its two `fmt.Errorf` sites:
`"deserializing pod template: %w"` and
`"pod template is not of type Pod, got: %q"` (the latter carries the
resolved group/version/kind). The `buildingScheme` branch mirrors the
`AddToScheme` error wrap. -/
inductive DecodeError where
  | buildingScheme (msg : String)
  | deserializing (msg : String)
  | kindMismatch (got : GroupVersionKind)
  deriving Repr, DecidableEq

/-- The input of `decodePodTemplate`, abstracted over the byte level:
either nil/empty bytes, or a document together with its parse outcome
under the universal deserializer (parse failure message, or the decoded
pod with the resolved group/version/kind). -/
inductive TemplateInput where
  | empty
  | doc (outcome : Sum String (Pod × GroupVersionKind))
  deriving Repr, DecidableEq

/-- Modelled from the spec: the schema-aware universal deserializer is
library code (`k8s.io/apimachinery`) not part of this repository.  Per the
spec ("Accepts nil/empty input and returns a zero-valued PodSpec with no
error") and the repository's own test `TestDecodePodTemplate`
(`decodePodTemplate(nil)` must not error), empty input deserializes into
the supplied zero `Pod` value with the group/version/kind defaulted from
the target type, namely `v1/Pod`.  A non-empty document yields its recorded
parse outcome. -/
def universalDeserialize : TemplateInput → Sum String (Pod × GroupVersionKind)
  | .empty => Sum.inr (zeroPod, { group := "", version := "v1", kind := "Pod" })
  | .doc outcome => outcome

/-- `decodePodTemplate` decodes the template to a pod resource: run the
universal deserializer (wrapping its failure), then require the resolved
kind to be exactly `"Pod"`, failing with a kind-mismatch error carrying the
resolved group/version/kind otherwise. -/
def decodePodTemplate (tmpl : TemplateInput) : Except DecodeError Pod :=
  match universalDeserialize tmpl with
  | Sum.inl msg => .error (.deserializing msg)
  | Sum.inr (pod, gvk) =>
      if gvk.kind ≠ "Pod" then .error (.kindMismatch gvk)
      else .ok pod

/-! ## `waitForIP` -/

/-- The kind of informer event delivered to the handlers registered by
`waitForIP` (`AddFunc`, `UpdateFunc`, `DeleteFunc`). -/
inductive EventKind where
  | add
  | update
  | delete
  deriving Repr, DecidableEq

/-- One event of the namespace-scoped pod informer: the kind of the event
and the (new, or for deletions the dead) pod it carries. -/
structure PodEvent where
  kind : EventKind
  pod : Pod
  deriving Repr, DecidableEq

/-- The `checkForIP` closure inside `waitForIP`: the pod's name equals the
awaited name and its address field is non-empty. All three event handlers
call it on the event's pod, irrespective of the event kind. -/
def checkForIP (podName : String) (p : Pod) : Bool :=
  p.name = podName && p.podIP ≠ ""

/-- `waitForIP` embedded sequentially over the list of events the informer
delivers: it returns `some ()` (the Go function returns `nil`) as soon as
some delivered event satisfies `checkForIP`, and `none` if the delivered
events are exhausted without a match — the Go function is then still
blocked in `informer.Run` (its signature takes no context or deadline; the
source is marked `// TODO Implement timeout`), so it has not returned. -/
def waitForIP (podName : String) : List PodEvent → Option Unit
  | [] => none
  | e :: rest => if checkForIP podName e.pod then some () else waitForIP podName rest

/-! ## `Run` and `cleanupPod` -/

/-- An opaque error reported by a cluster-API call. -/
structure ApiError where
  msg : String
  deriving Repr, DecidableEq

/-- The cluster-API operations `Run` and `cleanupPod` perform, recorded as
a trace, plus the log line `cleanupPod` emits when its delete fails. -/
inductive Op where
  | getPod (namespace_ : String) (name : String)
  | createPod (namespace_ : String) (pod : Pod)
  | deletePod (namespace_ : String) (name : String)
  | logDeleteError (e : ApiError)
  deriving Repr, DecidableEq

/-- The staged errors `Run` returns, one constructor per `fmt.Errorf`
wrap site: `"decoding pod template: %w"`, `"fetching data about myself: %w"`,
`"creating patient pod: %w"`, `"waiting on patient pod to get an IP: %w"`,
`"deleting patient pod: %w"`. Each carries the wrapped cause. -/
inductive RunError where
  | decodingTemplate (cause : DecodeError)
  | fetchingSelf (cause : ApiError)
  | creatingPod (cause : ApiError)
  | waitingForIP (cause : ApiError)
  | deletingPod (cause : ApiError)
  deriving Repr, DecidableEq

/-- The outcomes of the cluster-API calls one invocation of `Run` makes,
in the role of the `kubernetes.Interface` the Go function is parametric
over: the result of the self-lookup `Get`, of `Create` (as a function of
the submitted pod), of the outcome `Run` observes from `waitForIP`
(the source's `waitForIP` only ever returns `nil`, but `Run` has an
explicit branch handling an error from it), of the explicit `Delete` on
the success path, and of the `Delete` issued by the deferred
`cleanupPod`. -/
structure ClusterOracle where
  getSelf : Except ApiError Pod
  create : Pod → Except ApiError Pod
  waitOutcome : Except ApiError Unit
  deleteMain : Except ApiError Unit
  deleteCleanup : Except ApiError Unit

/-- `cleanupPod` kills the patient pod when it is not needed anymore: it
issues a `Delete` for the pod and, when that delete fails, logs the error
and continues. It returns no value, so its outcome cannot influence the
caller's result; only its trace is observable. -/
def cleanupPod (spw : SpawnerCfg) (o : ClusterOracle) (pod : Pod) : List Op :=
  Op.deletePod spw.PatientNamespace pod.name ::
    (match o.deleteCleanup with
     | .error e => [Op.logDeleteError e]
     | .ok _ => [])

/-- `Run` runs one patient cycle: decode the template, fetch the parent's
own pod record (`myName` is the hostname; its lookup error is discarded by
the source), configure the template from it, create the patient pod, wait
for it to get an IP, and delete it — every failure returning the staged
error of the failing step. From the moment `Create` succeeds, the deferred
`spw.cleanupPod` runs on every exit path, after the return value is
already determined (Go `defer` semantics), so its operations end the
trace. The function returns `Run`'s result together with the trace of
cluster-API operations performed. -/
def Run (spw : SpawnerCfg) (tmplInput : TemplateInput) (myName : String)
    (o : ClusterOracle) : Except RunError Unit × List Op :=
  match decodePodTemplate tmplInput with
  | .error e => (.error (.decodingTemplate e), [])
  | .ok tmpPod =>
      let tr0 := [Op.getPod spw.PatientNamespace myName]
      match o.getSelf with
      | .error e => (.error (.fetchingSelf e), tr0)
      | .ok parentPod =>
          let tmpPod := configurePod spw tmpPod parentPod
          let tr1 := tr0 ++ [Op.createPod spw.PatientNamespace tmpPod]
          match o.create tmpPod with
          | .error e => (.error (.creatingPod e), tr1)
          | .ok pod =>
              match o.waitOutcome with
              | .error e =>
                  (.error (.waitingForIP e), tr1 ++ cleanupPod spw o pod)
              | .ok _ =>
                  let tr2 := tr1 ++ [Op.deletePod spw.PatientNamespace pod.name]
                  match o.deleteMain with
                  | .error e =>
                      (.error (.deletingPod e), tr2 ++ cleanupPod spw o pod)
                  | .ok _ =>
                      (.ok (), tr2 ++ cleanupPod spw o pod)

/-! ## Helper lemmas -/

/-- Two strings with the same character data are equal. -/
theorem string_data_eq {s t : String} (h : s.data = t.data) : s = t := by
  cases s
  cases t
  exact congrArg String.mk h

/-- A replacement budget of `0` leaves the list unchanged. -/
theorem replaceLimited_zero (old new : Char) (l : List Char) :
    replaceLimited old new l 0 = l := by
  cases l <;> rfl

/-- Unfolding step: the head is the replaced character and budget remains. -/
theorem replaceLimited_cons_pos (old new : Char) (cs : List Char) (n : Nat) :
    replaceLimited old new (old :: cs) (n + 1) = new :: replaceLimited old new cs n := by
  simp [replaceLimited]

/-- Unfolding step: the head is not the replaced character. -/
theorem replaceLimited_cons_neg (old new c : Char) (h : ¬ c = old) (cs : List Char) (n : Nat) :
    replaceLimited old new (c :: cs) (n + 1) = c :: replaceLimited old new cs (n + 1) := by
  simp [replaceLimited, h]

/-- A list free of the replaced character is left unchanged by
`replaceLimited`, whatever the budget. -/
theorem replaceLimited_of_not_mem (old new : Char) :
    ∀ (l : List Char) (n : Nat), old ∉ l → replaceLimited old new l n = l := by
  intro l
  induction l with
  | nil => intro n _; cases n <;> rfl
  | cons c cs ih =>
      intro n h
      have hc : ¬ c = old := fun hh => h (by rw [← hh]; exact List.mem_cons_self c cs)
      have hcs : old ∉ cs := fun hm => h (List.mem_cons_of_mem _ hm)
      cases n with
      | zero => rfl
      | succ n => rw [replaceLimited_cons_neg old new c hc, ih _ hcs]

/-- With a positive budget, `replaceLimited` walks over a segment free of
the replaced character, replaces the next occurrence, and continues with
the budget decreased by one. -/
theorem replaceLimited_append_head (old new : Char) :
    ∀ (l rest : List Char) (n : Nat), old ∉ l →
      replaceLimited old new (l ++ old :: rest) (n + 1)
        = l ++ new :: replaceLimited old new rest n := by
  intro l
  induction l with
  | nil =>
      intro rest n _
      simp [replaceLimited]
  | cons c cs ih =>
      intro rest n h
      have hc : ¬ c = old := fun hh => h (by rw [← hh]; exact List.mem_cons_self c cs)
      have hcs : old ∉ cs := fun hm => h (List.mem_cons_of_mem _ hm)
      rw [List.cons_append, replaceLimited_cons_neg old new c hc, ih rest n hcs,
        List.cons_append]

/-- When the first segment contains at least `n` occurrences of the
replaced character, the whole replacement budget is spent inside it and
everything after the segment is preserved verbatim. -/
theorem replaceLimited_append_of_le_count (old new : Char) :
    ∀ (s t : List Char) (n : Nat), n ≤ s.count old →
      replaceLimited old new (s ++ t) n = replaceLimited old new s n ++ t := by
  intro s
  induction s with
  | nil =>
      intro t n hn
      have h0 : n = 0 := Nat.le_zero.mp (by simpa using hn)
      subst h0
      simp [replaceLimited_zero]
  | cons c cs ih =>
      intro t n hn
      cases n with
      | zero => simp [replaceLimited_zero]
      | succ n =>
          by_cases hc : c = old
          · subst hc
            have hn' : n ≤ cs.count c := by
              rw [List.count_cons_self] at hn
              omega
            rw [List.cons_append, replaceLimited_cons_pos, replaceLimited_cons_pos,
              ih t n hn', List.cons_append]
          · have hne : old ≠ c := fun hh => hc hh.symm
            have hn' : n + 1 ≤ cs.count old := by
              rwa [List.count_cons_of_ne hne] at hn
            rw [List.cons_append, replaceLimited_cons_neg old new c hc,
              replaceLimited_cons_neg old new c hc, ih t (n + 1) hn', List.cons_append]

/-! ## Claims about `getPodSDHostname` -/

/-- C4: for every parent pod whose address has the dotted form `A.B.C.D`
(the four parts themselves containing no dot), the derived DNS hostname is
the address with its dots replaced by hyphens, followed by the fixed
suffix `.default.pod.cluster.local`. -/
theorem claim_C4_hostname_dotted_quad (p : Pod) (a b c d : String)
    (hip : p.podIP = a ++ "." ++ b ++ "." ++ c ++ "." ++ d)
    (ha : '.' ∉ a.data) (hb : '.' ∉ b.data) (hc : '.' ∉ c.data) (hd : '.' ∉ d.data) :
    getPodSDHostname p =
      a ++ "-" ++ b ++ "-" ++ c ++ "-" ++ d ++ ".default.pod.cluster.local" := by
  have hdot : ("." : String).data = ['.'] := by decide
  have hdata : p.podIP.data = a.data ++ '.' :: (b.data ++ '.' :: (c.data ++ '.' :: d.data)) := by
    rw [hip]
    simp [String.data_append, hdot]
  unfold getPodSDHostname
  rw [hdata,
      replaceLimited_append_head '.' '-' a.data _ 3 ha,
      replaceLimited_append_head '.' '-' b.data _ 2 hb,
      replaceLimited_append_head '.' '-' c.data _ 1 hc,
      replaceLimited_of_not_mem '.' '-' d.data 1 hd]
  apply string_data_eq
  have hdash : ("-" : String).data = ['-'] := by decide
  simp [String.data_append, hdash]

/-- C4 witness: for the parent address `10.22.33.4` the derived hostname
is exactly `10-22-33-4.default.pod.cluster.local`. -/
theorem claim_C4_hostname_dotted_quad_witness :
    ({ zeroPod with podIP := "10.22.33.4" } : Pod).podIP
        = "10" ++ "." ++ "22" ++ "." ++ "33" ++ "." ++ "4" ∧
    getPodSDHostname { zeroPod with podIP := "10.22.33.4" }
        = "10-22-33-4.default.pod.cluster.local" := by
  refine ⟨by decide, ?_⟩
  have h := claim_C4_hostname_dotted_quad { zeroPod with podIP := "10.22.33.4" }
    "10" "22" "33" "4" (by decide) (by decide) (by decide) (by decide) (by decide)
  exact h.trans (by decide)

/-- C9: hostname derivation replaces at most the first four dots of the
address: for every split of the address as `s ++ t` in which `s` already
contains (at least) four dots, the tail `t` — which holds every dot after
the fourth — appears verbatim in the derived hostname, followed only by
the fixed suffix. -/
theorem claim_C9_later_dots_preserved (p : Pod) (s t : String)
    (hip : p.podIP = s ++ t) (hcount : 4 ≤ s.data.count '.') :
    getPodSDHostname p =
      String.mk (replaceLimited '.' '-' s.data 4) ++ t ++ ".default.pod.cluster.local" := by
  unfold getPodSDHostname
  have hdata : p.podIP.data = s.data ++ t.data := by
    rw [hip, String.data_append]
  rw [hdata, replaceLimited_append_of_le_count '.' '-' s.data t.data 4 hcount]
  apply string_data_eq
  simp [String.data_append]

/-- C9 witness: for the address `1.2.3.4.5.6` (five dots) only the first
four dots are replaced, yielding `1-2-3-4-5.6.default.pod.cluster.local`:
the dot between `5` and `6` survives. -/
theorem claim_C9_later_dots_preserved_witness :
    ({ zeroPod with podIP := "1.2.3.4.5.6" } : Pod).podIP = "1.2.3.4." ++ "5.6" ∧
    4 ≤ ("1.2.3.4." : String).data.count '.' ∧
    getPodSDHostname { zeroPod with podIP := "1.2.3.4.5.6" }
        = "1-2-3-4-5.6.default.pod.cluster.local" := by
  refine ⟨by decide, by decide, ?_⟩
  have h := claim_C9_later_dots_preserved { zeroPod with podIP := "1.2.3.4.5.6" }
    "1.2.3.4." "5.6" (by decide) (by decide)
  exact h.trans (by decide)

/-! ## Claims about `configurePod` -/

/-- Full characterization of `configurePod`, used by the claims below:
metadata is set from the parent, and the container list is the template's
with the first container's image and env overwritten (a `patient`
container being synthesized first when the template declares none). -/
theorem configurePod_eq (spw : SpawnerCfg) (tmpl parent : Pod) :
    configurePod spw tmpl parent =
      { tmpl with
        name := parent.name ++ "-patient",
        ownerReferences :=
          [ { apiVersion := "v1", kind := "Pod", name := parent.name, uid := parent.uid } ],
        containers :=
          match tmpl.containers with
          | [] =>
              [ { name := "patient", args := ["patient"], image := spw.PatientImage,
                  env := patientEnv spw parent } ]
          | c0 :: rest =>
              { c0 with image := spw.PatientImage, env := patientEnv spw parent } :: rest } := by
  obtain ⟨nm, u, orefs, conts, ip⟩ := tmpl
  cases conts <;> rfl

/-- C5: `configurePod` synthesizes exactly one container named `patient`
with the single argument `patient` when the template declares none;
afterwards the first container's image is overwritten with the configured
patient image and its environment is replaced wholesale with exactly the
four entries `KUBENURSE_DIRECT_URL` (from the parent's address),
`KUBENURSE_DNS_URL` (from the derived hostname), `KUBENURSE_INGRESS_URL`
and `KUBENURSE_SERVICE_URL` (from configuration); later containers are
untouched. -/
theorem claim_C5_containers_image_env (spw : SpawnerCfg) (tmpl parent : Pod) :
    (tmpl.containers = [] →
      (configurePod spw tmpl parent).containers =
        [ { name := "patient", args := ["patient"], image := spw.PatientImage,
            env := patientEnv spw parent } ]) ∧
    (∀ c0 rest, tmpl.containers = c0 :: rest →
      (configurePod spw tmpl parent).containers =
        { c0 with image := spw.PatientImage, env := patientEnv spw parent } :: rest) ∧
    patientEnv spw parent =
      [ { name := "KUBENURSE_DIRECT_URL", value := "http://" ++ parent.podIP ++ ":8080" },
        { name := "KUBENURSE_DNS_URL",
          value := "http://" ++ getPodSDHostname parent ++ ":8080" },
        { name := "KUBENURSE_INGRESS_URL", value := spw.IngressURL },
        { name := "KUBENURSE_SERVICE_URL", value := spw.ServiceURL } ] := by
  refine ⟨?_, ?_, rfl⟩
  · intro h
    rw [configurePod_eq]
    simp [h]
  · intro c0 rest h
    rw [configurePod_eq]
    simp [h]

/-- An example configuration used by concrete instantiations below. -/
def exCfg : SpawnerCfg :=
  { PatientNamespace := "ns", PatientImage := "img", ServiceURL := "svc", IngressURL := "ing" }

/-- An example parent pod used by concrete instantiations below. -/
def exParent : Pod :=
  { name := "p", uid := "u1", ownerReferences := [], containers := [], podIP := "10.0.0.1" }

/-- An example container carried by a template, to observe what survives
`configurePod`. -/
def exContainer : Container :=
  { name := "c", args := [], image := "old", env := [{ name := "X", value := "y" }] }

/-- C5 witness: instantiation at an empty template (synthesized container)
and at a template carrying one container (whose name and args survive, its
image and env being overwritten). -/
theorem claim_C5_containers_image_env_witness :
    (zeroPod.containers = [] ∧
      (configurePod exCfg zeroPod exParent).containers =
        [ { name := "patient", args := ["patient"], image := "img",
            env := patientEnv exCfg exParent } ]) ∧
    (({ zeroPod with containers := [exContainer] } : Pod).containers = exContainer :: [] ∧
      (configurePod exCfg { zeroPod with containers := [exContainer] } exParent).containers =
        { exContainer with image := "img", env := patientEnv exCfg exParent } :: []) := by
  constructor
  · exact ⟨rfl, (claim_C5_containers_image_env exCfg zeroPod exParent).1 rfl⟩
  · exact ⟨rfl, (claim_C5_containers_image_env exCfg _ exParent).2.1 _ _ rfl⟩

/-- C6: the child's name is the parent's name with the fixed suffix
`-patient`, and the child carries exactly one owner reference recording
the parent's name, kind `Pod`, API version `v1` and UID. -/
theorem claim_C6_name_and_owner (spw : SpawnerCfg) (tmpl parent : Pod) :
    (configurePod spw tmpl parent).name = parent.name ++ "-patient" ∧
    (configurePod spw tmpl parent).ownerReferences =
      [ { apiVersion := "v1", kind := "Pod", name := parent.name, uid := parent.uid } ] := by
  rw [configurePod_eq]
  exact ⟨rfl, rfl⟩

/-- Value of the environment variable named `n` on the first container. -/
def firstContainerEnv (p : Pod) (n : String) : Option String :=
  p.containers.head?.bind fun c =>
    (c.env.find? fun ev => ev.name == n).map fun ev => ev.value

/-- C10 counterexample: as literally stated the claim is false — the
child's DNS URL ends in the port suffix `:8080`, not in
`default.pod.cluster.local`. (The hard-coded `default` namespace does sit
right before the port, see the amended theorem.) -/
theorem claim_C10_counterexample :
    firstContainerEnv
        (configurePod { exCfg with PatientNamespace := "kube-system" } zeroPod
          { exParent with podIP := "10.22.33.4" })
        "KUBENURSE_DNS_URL"
      = some "http://10-22-33-4.default.pod.cluster.local:8080" ∧
    ¬ (("default.pod.cluster.local" : String).data <:+
        ("http://10-22-33-4.default.pod.cluster.local:8080" : String).data) := by
  exact ⟨by decide, by decide⟩

/-- C10 (amended): the derived hostname hard-codes the namespace
`default`: `configurePod` is entirely independent of the configured
patient namespace, and for every parent the child's DNS URL ends in
`default.pod.cluster.local:8080` — the hard-coded `default` suffix
immediately followed by the port. -/
theorem claim_C10_default_namespace_hardcoded (spw : SpawnerCfg) (ns : String)
    (tmpl parent : Pod) :
    configurePod { spw with PatientNamespace := ns } tmpl parent
        = configurePod spw tmpl parent ∧
    ∃ v, firstContainerEnv (configurePod spw tmpl parent) "KUBENURSE_DNS_URL" = some v ∧
      ("default.pod.cluster.local:8080" : String).data <:+ v.data := by
  constructor
  · rfl
  · refine ⟨"http://" ++ getPodSDHostname parent ++ ":8080", ?_, ?_⟩
    · rw [configurePod_eq]
      obtain ⟨nm, u, orefs, conts, ip⟩ := tmpl
      cases conts <;> rfl
    · have hsfx : ("default.pod.cluster.local:8080" : String).data =
          ("default.pod.cluster.local" : String).data ++ (":8080" : String).data := by decide
      rw [hsfx]
      refine ⟨("http://" : String).data ++ replaceLimited '.' '-' parent.podIP.data 4 ++ ['.'], ?_⟩
      have hdot : (".default.pod.cluster.local" : String).data =
          '.' :: ("default.pod.cluster.local" : String).data := by decide
      simp [getPodSDHostname, String.data_append, hdot]

/-! ## Claims about `decodePodTemplate` -/

/-- C7: decoding a nil or empty template returns the zero-valued pod and
no error. -/
theorem claim_C7_decode_empty : decodePodTemplate .empty = .ok zeroPod := rfl

/-- C8: for every template document that parses successfully,
`decodePodTemplate` fails with a kind-mismatch error carrying the resolved
group/version/kind exactly when that kind is not `Pod`; a document of kind
`Pod` passes the validation and the decoded pod is returned. -/
theorem claim_C8_kind_validation (pod : Pod) (gvk : GroupVersionKind) :
    decodePodTemplate (.doc (Sum.inr (pod, gvk))) =
      if gvk.kind = "Pod" then .ok pod else .error (.kindMismatch gvk) := by
  unfold decodePodTemplate universalDeserialize
  by_cases h : gvk.kind = "Pod" <;> simp [h]

/-! ## Claim about `waitForIP` and the cycle deadline -/

/-- C3 (code behavior at the failing input): `waitForIP` takes no deadline
at all — neither the cycle's context nor any timeout reaches it (`Run`
calls it as `waitForIP(clientset, spw.PatientNamespace, pod.Name)`, and
its body is marked `// TODO Implement timeout`).  Consequently, on any
delivered event sequence in which no event matches the awaited pod name
with a non-empty address, it never returns: no timeout signal exists,
contradicting the claimed deadline propagation. -/
theorem claim_C3_waitForIP_has_no_deadline (podName : String) (events : List PodEvent)
    (h : ∀ e ∈ events, checkForIP podName e.pod = false) :
    waitForIP podName events = none := by
  induction events with
  | nil => rfl
  | cons e rest ih =>
      have he : checkForIP podName e.pod = false := h e (List.mem_cons_self e rest)
      have hrest : ∀ e ∈ rest, checkForIP podName e.pod = false :=
        fun x hx => h x (List.mem_cons_of_mem _ hx)
      simp [waitForIP, he, ih hrest]

/-- C3 witness: with no events delivered at all (a patient pod that never
gets an IP), `waitForIP` is still blocked — it has produced no timeout
result, whatever deadline the surrounding cycle carried. -/
theorem claim_C3_waitForIP_has_no_deadline_witness :
    (∀ e ∈ ([] : List PodEvent), checkForIP "kubenurse-abc-patient" e.pod = false) ∧
    waitForIP "kubenurse-abc-patient" [] = none := by
  refine ⟨fun e he => absurd he (List.not_mem_nil e), ?_⟩
  exact claim_C3_waitForIP_has_no_deadline "kubenurse-abc-patient" [] fun e he =>
    absurd he (List.not_mem_nil e)

/-! ## Claim about `Run` -/

/-- C1: (i) if the template decode fails, `Run` returns the
`decoding pod template` staged error and performs no cluster operation at
all, in particular no delete; (ii) if the self-lookup fails, `Run` returns
the `fetching data about myself` staged error and the only operation
performed is that lookup — again no delete; (iii) if the create call
succeeds, then whatever happens afterwards the deferred cleanup delete of
the created pod is in the trace before `Run` returns, and `Run`'s result
is entirely independent of the cleanup delete's outcome, so a cleanup
failure can never replace or mask the error `Run` returns. -/
theorem claim_C1_run_error_and_cleanup (spw : SpawnerCfg) (ti : TemplateInput)
    (myName : String) (o : ClusterOracle) (x : Except ApiError Unit) :
    (∀ e, decodePodTemplate ti = .error e →
      Run spw ti myName o = (.error (.decodingTemplate e), [])) ∧
    (∀ tmp e, decodePodTemplate ti = .ok tmp → o.getSelf = .error e →
      Run spw ti myName o =
        (.error (.fetchingSelf e), [Op.getPod spw.PatientNamespace myName])) ∧
    (∀ tmp parent pod, decodePodTemplate ti = .ok tmp → o.getSelf = .ok parent →
      o.create (configurePod spw tmp parent) = .ok pod →
      Op.deletePod spw.PatientNamespace pod.name ∈ (Run spw ti myName o).2 ∧
      (Run spw ti myName { o with deleteCleanup := x }).1 = (Run spw ti myName o).1) := by
  refine ⟨?_, ?_, ?_⟩
  · intro e h
    simp [Run, h]
  · intro tmp e h1 h2
    simp [Run, h1, h2]
  · intro tmp parent pod h1 h2 h3
    constructor
    · cases hw : o.waitOutcome with
      | error ew => simp [Run, h1, h2, h3, hw, cleanupPod]
      | ok _ =>
          cases hd : o.deleteMain with
          | error ed => simp [Run, h1, h2, h3, hw, hd, cleanupPod]
          | ok _ => simp [Run, h1, h2, h3, hw, hd, cleanupPod]
    · cases hw : o.waitOutcome with
      | error ew => simp [Run, h1, h2, h3, hw]
      | ok _ =>
          cases hd : o.deleteMain with
          | error ed => simp [Run, h1, h2, h3, hw, hd]
          | ok _ => simp [Run, h1, h2, h3, hw, hd]

/-- A concrete oracle for the C1 witness: the self-lookup and the create
succeed, the address-wait fails, the explicit delete would succeed, and
the cleanup delete itself fails. -/
def exOracle : ClusterOracle :=
  { getSelf := .ok exParent,
    create := fun p => .ok p,
    waitOutcome := .error { msg := "wait failed" },
    deleteMain := .ok (),
    deleteCleanup := .error { msg := "cleanup failed" } }

/-- C1 witness: with an empty template, a successful create and a failing
address-wait, the cleanup delete of the created pod `p-patient` is in the
trace, and flipping the cleanup delete's outcome to success leaves `Run`'s
returned error untouched. -/
theorem claim_C1_run_error_and_cleanup_witness :
    decodePodTemplate .empty = .ok zeroPod ∧
    exOracle.getSelf = .ok exParent ∧
    exOracle.create (configurePod exCfg zeroPod exParent)
      = .ok (configurePod exCfg zeroPod exParent) ∧
    Op.deletePod "ns" (configurePod exCfg zeroPod exParent).name
      ∈ (Run exCfg .empty "me" exOracle).2 ∧
    (Run exCfg .empty "me" { exOracle with deleteCleanup := .ok () }).1
      = (Run exCfg .empty "me" exOracle).1 := by
  have h := claim_C1_run_error_and_cleanup exCfg .empty "me" exOracle (.ok ())
  have h3 := h.2.2 zeroPod exParent (configurePod exCfg zeroPod exParent) rfl rfl rfl
  exact ⟨rfl, rfl, rfl, h3.1, h3.2⟩

end Spawner
